import Mathlib

/-!
Verification of `worker_script.py` (variant 2 of the batch text-analysis
scripts): a shallow embedding of the worker's file listing, MD5-based shard
selection, word/letter counting, and per-replica result production, together
with proofs of the spec's testable properties.

Modelling conventions:
* A directory is a list of `(filename, contents?)` pairs; `none` contents
  model a file whose read or UTF-8 decode raises (`IOError` /
  `UnicodeDecodeError`).
* File text is a `List Char` (Python reads the decoded text into a `str`).
* Python exceptions are an explicit `Except PyErr` result; a run that raises
  produces `.error e` and writes nothing.
* Machine integers do not occur: Python integers are unbounded, so `Nat`/`Int`
  model them exactly; MD5's 32-bit words are `Nat` reduced `% 2^32`.
* `char.isalpha()` consults Python's Unicode tables, which are external data;
  the counting functions are parametrised by the alphabetic classification
  `isalpha : Char → Bool`, and concrete examples instantiate it with the
  ASCII classification, on which Python and the model agree.
-/

/-- Python's whitespace set for `str.split()` / `str.isspace()`:
the code points with bidirectional class WS, B or S or category Zs
(CPython's `Py_UNICODE_ISSPACE`). -/
def pyIsSpace (c : Char) : Bool :=
  let n := c.toNat
  (9 ≤ n && n ≤ 13) || (28 ≤ n && n ≤ 31) || n == 32 || n == 133 || n == 160 ||
  n == 0x1680 || (0x2000 ≤ n && n ≤ 0x200A) || n == 0x2028 || n == 0x2029 ||
  n == 0x202F || n == 0x205F || n == 0x3000

/-- ASCII restriction of Python's `str.isalpha()` classification (`A`–`Z`,
`a`–`z`).  Python's full classification also accepts non-ASCII Unicode
letters; on ASCII text the two agree. -/
def pyIsAlphaAscii (c : Char) : Bool :=
  (65 ≤ c.toNat && c.toNat ≤ 90) || (97 ≤ c.toNat && c.toNat ≤ 122)

/-- Tokenizer behind Python's `text.split()` (no separator argument):
runs of `pyIsSpace` characters separate tokens, and leading/trailing
whitespace yields no empty tokens.  `acc` holds the reversed current token. -/
def splitAux : List Char → List Char → List (List Char)
  | [], acc => if acc.isEmpty then [] else [acc.reverse]
  | c :: cs, acc =>
    if pyIsSpace c then
      if acc.isEmpty then splitAux cs [] else acc.reverse :: splitAux cs []
    else splitAux cs (c :: acc)

/-- Python's `text.split()` with no arguments. -/
def pySplit (text : List Char) : List (List Char) :=
  splitAux text []

/-- Line 14 of `worker_script.py`: `word_count = len(text.split())`. -/
def wordCount (text : List Char) : Nat :=
  (pySplit text).length

/-- Line 15 of `worker_script.py`:
`letter_count = sum(1 for char in text if char.isalpha())`. -/
def letterCount (isalpha : Char → Bool) (text : List Char) : Nat :=
  text.countP isalpha

/-! ### MD5 (RFC 1321), as used by `hashlib.md5(f.encode()).hexdigest()` -/

/-- UTF-8 encoding of one character, as `str.encode()` produces. -/
def utf8Bytes (c : Char) : List Nat :=
  let n := c.toNat
  if n < 0x80 then [n]
  else if n < 0x800 then
    [0xC0 ||| (n >>> 6), 0x80 ||| (n &&& 0x3F)]
  else if n < 0x10000 then
    [0xE0 ||| (n >>> 12), 0x80 ||| ((n >>> 6) &&& 0x3F), 0x80 ||| (n &&& 0x3F)]
  else
    [0xF0 ||| (n >>> 18), 0x80 ||| ((n >>> 12) &&& 0x3F),
     0x80 ||| ((n >>> 6) &&& 0x3F), 0x80 ||| (n &&& 0x3F)]

/-- `f.encode()`: the UTF-8 bytes of a string. -/
def strBytes (s : String) : List Nat :=
  (s.data.map utf8Bytes).flatten

/-- The 64 MD5 round constants `K[i] = floor(2^32 * |sin(i+1)|)`. -/
def md5K : List Nat :=
  [0xd76aa478, 0xe8c7b756, 0x242070db, 0xc1bdceee,
   0xf57c0faf, 0x4787c62a, 0xa8304613, 0xfd469501,
   0x698098d8, 0x8b44f7af, 0xffff5bb1, 0x895cd7be,
   0x6b901122, 0xfd987193, 0xa679438e, 0x49b40821,
   0xf61e2562, 0xc040b340, 0x265e5a51, 0xe9b6c7aa,
   0xd62f105d, 0x02441453, 0xd8a1e681, 0xe7d3fbc8,
   0x21e1cde6, 0xc33707d6, 0xf4d50d87, 0x455a14ed,
   0xa9e3e905, 0xfcefa3f8, 0x676f02d9, 0x8d2a4c8a,
   0xfffa3942, 0x8771f681, 0x6d9d6122, 0xfde5380c,
   0xa4beea44, 0x4bdecfa9, 0xf6bb4b60, 0xbebfbc70,
   0x289b7ec6, 0xeaa127fa, 0xd4ef3085, 0x04881d05,
   0xd9d4d039, 0xe6db99e5, 0x1fa27cf8, 0xc4ac5665,
   0xf4292244, 0x432aff97, 0xab9423a7, 0xfc93a039,
   0x655b59c3, 0x8f0ccc92, 0xffeff47d, 0x85845dd1,
   0x6fa87e4f, 0xfe2ce6e0, 0xa3014314, 0x4e0811a1,
   0xf7537e82, 0xbd3af235, 0x2ad7d2bb, 0xeb86d391]

/-- The 64 MD5 per-round left-rotation amounts. -/
def md5S : List Nat :=
  [7, 12, 17, 22, 7, 12, 17, 22, 7, 12, 17, 22, 7, 12, 17, 22,
   5,  9, 14, 20, 5,  9, 14, 20, 5,  9, 14, 20, 5,  9, 14, 20,
   4, 11, 16, 23, 4, 11, 16, 23, 4, 11, 16, 23, 4, 11, 16, 23,
   6, 10, 15, 21, 6, 10, 15, 21, 6, 10, 15, 21, 6, 10, 15, 21]

/-- 32-bit left rotation. -/
def rotl32 (x s : Nat) : Nat :=
  ((x <<< s) ||| (x >>> (32 - s))) % 4294967296

/-- The running 128-bit MD5 state as four 32-bit words. -/
structure MD5State where
  a : Nat
  b : Nat
  c : Nat
  d : Nat
deriving Repr, DecidableEq

/-- One of the 64 MD5 rounds on a 16-word message block `M`. -/
def md5Round (M : List Nat) (st : MD5State) (i : Nat) : MD5State :=
  let fg :=
    if i < 16 then
      ((st.b &&& st.c) ||| ((4294967295 ^^^ st.b) &&& st.d), i)
    else if i < 32 then
      ((st.d &&& st.b) ||| ((4294967295 ^^^ st.d) &&& st.c), (5 * i + 1) % 16)
    else if i < 48 then
      (st.b ^^^ st.c ^^^ st.d, (3 * i + 5) % 16)
    else
      (st.c ^^^ (st.b ||| (4294967295 ^^^ st.d)), (7 * i) % 16)
  let F := (fg.1 + st.a + md5K.getD i 0 + M.getD fg.2 0) % 4294967296
  { a := st.d
    b := (st.b + rotl32 F (md5S.getD i 0)) % 4294967296
    c := st.b
    d := st.c }

/-- Process one 64-byte chunk, given as its 16 little-endian words. -/
def md5Chunk (st : MD5State) (M : List Nat) : MD5State :=
  let r := (List.range 64).foldl (md5Round M) st
  { a := (st.a + r.a) % 4294967296
    b := (st.b + r.b) % 4294967296
    c := (st.c + r.c) % 4294967296
    d := (st.d + r.d) % 4294967296 }

/-- The 8 little-endian bytes of the 64-bit message bit length. -/
def le64 (n : Nat) : List Nat :=
  (List.range 8).map fun i => (n >>> (8 * i)) % 256

/-- MD5 padding: a `0x80` byte, zeros to 56 mod 64, then the bit length. -/
def md5Pad (msg : List Nat) : List Nat :=
  msg ++ 0x80 :: List.replicate ((119 - msg.length % 64) % 64) 0 ++
    le64 ((msg.length * 8) % 18446744073709551616)

/-- Split a byte list into 64-byte chunks, structurally on a fuel argument
so that the kernel can evaluate it; `fuel` bounds the number of chunks. -/
def chunks64Aux : Nat → List Nat → List (List Nat)
  | _, [] => []
  | 0, l => [l]
  | fuel + 1, l => l.take 64 :: chunks64Aux fuel (l.drop 64)

/-- Split a byte list into 64-byte chunks (the list's length always
suffices as fuel, since each chunk consumes at least one byte). -/
def chunks64 (l : List Nat) : List (List Nat) :=
  chunks64Aux l.length l

/-- The 16 little-endian 32-bit words of a 64-byte chunk. -/
def chunkWords (c : List Nat) : List Nat :=
  (List.range 16).map fun j =>
    c.getD (4 * j) 0 + 256 * c.getD (4 * j + 1) 0 +
    65536 * c.getD (4 * j + 2) 0 + 16777216 * c.getD (4 * j + 3) 0

/-- The 4 little-endian bytes of one 32-bit state word. -/
def le32 (x : Nat) : List Nat :=
  [x % 256, (x >>> 8) % 256, (x >>> 16) % 256, (x >>> 24) % 256]

/-- The 16-byte MD5 digest of a byte message. -/
def md5Digest (msg : List Nat) : List Nat :=
  let st := (chunks64 (md5Pad msg)).foldl (fun s c => md5Chunk s (chunkWords c))
    ⟨0x67452301, 0xefcdab89, 0x98badcfe, 0x10325476⟩
  le32 st.a ++ le32 st.b ++ le32 st.c ++ le32 st.d

/-- A byte list read as a big-endian number: `int(hexdigest, 16)` reads the
digest's hex string, which lists the digest bytes in order, so the value is
the big-endian interpretation of the 16 digest bytes. -/
def bytesBE (bs : List Nat) : Nat :=
  bs.foldl (fun acc b => acc * 256 + b) 0

/-- Line 22's hash: `int(hashlib.md5(f.encode()).hexdigest(), 16)`. -/
def md5int (f : String) : Nat :=
  bytesBE (md5Digest (strBytes f))

/-! ### The worker's effectful pipeline -/

/-- The exceptions the worker can raise: `ZeroDivisionError` from `% 0` on
line 22, and a file read/decode failure (`IOError`/`UnicodeDecodeError`)
from lines 12–13. -/
inductive PyErr where
  | zeroDivision
  | readFailure
deriving DecidableEq, Repr

deriving instance DecidableEq for Except

/-- Python's `a % b` on integers: raises `ZeroDivisionError` when `b = 0`,
otherwise floored modulus (result takes the divisor's sign), which is
`Int.fmod`. -/
def pyMod (a b : Int) : Except PyErr Int :=
  if b = 0 then .error .zeroDivision else .ok (Int.fmod a b)

/-- Line 22's filter condition:
`int(hashlib.md5(f.encode()).hexdigest(), 16) % REPLICA_COUNT == REPLICA_ID`. -/
def shardCheck (f : String) (replicaCount replicaId : Int) : Except PyErr Bool :=
  match pyMod (md5int f) replicaCount with
  | .error e => .error e
  | .ok r => .ok (r == replicaId)

/-- The input directory: filenames paired with their contents, `none` when
reading or decoding the file raises.  The list order is `os.listdir`'s
enumeration order. -/
abbrev Dir := List (String × Option (List Char))

/-- Python's `f.endswith(".txt")`. -/
def endsWithTxt (f : String) : Bool :=
  ".txt".data.isSuffixOf f.data

/-- Line 19: `[f for f in os.listdir(input_dir) if f.endswith(".txt")]`. -/
def listTxtFiles (dir : Dir) : List String :=
  (dir.map Prod.fst).filter endsWithTxt

/-- Lines 12–13: `open(file_path, 'r', encoding='utf-8')` + `f.read()`;
fails when the directory has no such file or its read/decode raises. -/
def readFile (dir : Dir) (f : String) : Except PyErr (List Char) :=
  match dir.lookup f with
  | some (some text) => .ok text
  | _ => .error .readFailure

/-- Lines 11–16: `count_words_and_letters` reads the file and returns
`(word_count, letter_count)`. -/
def count_words_and_letters (isalpha : Char → Bool) (dir : Dir) (f : String) :
    Except PyErr (Nat × Nat) :=
  match readFile dir f with
  | .error e => .error e
  | .ok text => .ok (wordCount text, letterCount isalpha text)

/-- Effectful filter: a Python list comprehension whose condition may raise,
evaluated left to right, aborting at the first raise. -/
def filterE (p : α → Except PyErr Bool) : List α → Except PyErr (List α)
  | [] => .ok []
  | x :: xs =>
    match p x with
    | .error e => .error e
    | .ok b =>
      match filterE p xs with
      | .error e => .error e
      | .ok rest => .ok (if b then x :: rest else rest)

/-- Effectful map: a Python loop whose body may raise, evaluated left to
right, aborting at the first raise. -/
def mapE (g : α → Except PyErr β) : List α → Except PyErr (List β)
  | [] => .ok []
  | x :: xs =>
    match g x with
    | .error e => .error e
    | .ok y =>
      match mapE g xs with
      | .error e => .error e
      | .ok ys => .ok (y :: ys)

/-- Lines 25–28, the body of the result-collection loop of `process_files`
applied to one assigned filename: read and count the file, and record the
entry `filename ↦ (words, letters)`. -/
def resultStep (isalpha : Char → Bool) (dir : Dir) (f : String) :
    Except PyErr (String × Nat × Nat) :=
  match count_words_and_letters isalpha dir f with
  | .error e => .error e
  | .ok wl => .ok (f, wl.1, wl.2)

/-- Line 22: `assigned_files = [f for f in files if int(md5(f), 16) %
REPLICA_COUNT == REPLICA_ID]`. -/
def assignedList (dir : Dir) (replicaCount replicaId : Int) :
    Except PyErr (List String) :=
  filterE (fun f => shardCheck f replicaCount replicaId) (listTxtFiles dir)

/-- Lines 18–32: `process_files`.  On success the result is the one output
file the replica writes: its name `results_<REPLICA_ID>.json` and the
ordered key/value pairs `filename ↦ (words, letters)` of the JSON object
dumped into it.  An exception anywhere (`% 0` in the shard filter, or a
read/decode failure in the loop) yields `.error` before the output file is
opened, so nothing is written. -/
def process_files (isalpha : Char → Bool) (dir : Dir)
    (replicaCount replicaId : Int) :
    Except PyErr (String × List (String × Nat × Nat)) :=
  match assignedList dir replicaCount replicaId with
  | .error e => .error e
  | .ok assigned =>
    match mapE (resultStep isalpha dir) assigned with
    | .error e => .error e
    | .ok results => .ok ("results_" ++ toString replicaId ++ ".json", results)

/-! ### Spec-side formulations -/

/-- Spec side, for C2: counts the maximal runs of non-whitespace characters
by scanning left to right; `inRun` records whether the previous character
was part of a run, so the count increments exactly at each run's first
character. -/
def runCountAux : Bool → List Char → Nat
  | _, [] => 0
  | inRun, c :: cs =>
    if pyIsSpace c then runCountAux false cs
    else (if inRun then 0 else 1) + runCountAux true cs

/-- Spec side, for C2: the number of maximal non-whitespace runs in a text. -/
def runCount (text : List Char) : Nat :=
  runCountAux false text

/-- Spec side, for C1/C8/C9: the pure shard-assignment predicate of the
spec's data model, `hash(filename) mod replica_count == replica_id`
(meaningful when `replicaCount ≠ 0`). -/
def isAssigned (f : String) (replicaCount replicaId : Int) : Bool :=
  Int.fmod (md5int f) replicaCount == replicaId

/-! ### Sanity anchors for the MD5 embedding (RFC 1321 test vectors) -/

set_option maxRecDepth 100000 in
/-- RFC 1321 test vector: `md5("abc") = 900150983cd24fb0d6963f7d28e17f72`. -/
theorem md5int_abc : md5int "abc" = 0x900150983cd24fb0d6963f7d28e17f72 := by decide

set_option maxRecDepth 100000 in
/-- RFC 1321 test vector: `md5("") = d41d8cd98f00b204e9800998ecf8427e`. -/
theorem md5int_empty : md5int "" = 0xd41d8cd98f00b204e9800998ecf8427e := by decide

/-! ### Helper lemmas -/

/-- With a nonzero replica count, the shard condition never raises and
computes the pure assignment predicate. -/
theorem shardCheck_eq_isAssigned (f : String) {replicaCount : Int}
    (replicaId : Int) (h : replicaCount ≠ 0) :
    shardCheck f replicaCount replicaId =
      .ok (isAssigned f replicaCount replicaId) := by
  simp [shardCheck, pyMod, isAssigned, h]

/-- With a zero replica count, the shard condition raises. -/
theorem shardCheck_zero (f : String) (replicaId : Int) :
    shardCheck f 0 replicaId = .error .zeroDivision := by
  simp [shardCheck, pyMod]

/-- A raise-free predicate makes the effectful filter a pure filter. -/
theorem filterE_pure {p : α → Except PyErr Bool} {q : α → Bool}
    (hp : ∀ x, p x = .ok (q x)) (l : List α) :
    filterE p l = .ok (l.filter q) := by
  induction l with
  | nil => rfl
  | cons x xs ih =>
    cases hq : q x <;>
      simp [filterE, hp x, ih, List.filter_cons, hq]

/-- If the effectful map succeeds, every input/output pair is related by a
successful application. -/
theorem mapE_ok_forall2 {g : α → Except PyErr β} {l : List α} {ys : List β}
    (h : mapE g l = .ok ys) :
    List.Forall₂ (fun x y => g x = .ok y) l ys := by
  induction l generalizing ys with
  | nil =>
    simp only [mapE] at h
    cases h
    exact List.Forall₂.nil
  | cons x xs ih =>
    simp only [mapE] at h
    cases hgx : g x with
    | error e => rw [hgx] at h; cases h
    | ok y =>
      rw [hgx] at h
      cases hrest : mapE g xs with
      | error e => rw [hrest] at h; cases h
      | ok ys' =>
        rw [hrest] at h
        cases h
        exact List.Forall₂.cons hgx (ih hrest)

/-- If some element of the list fails and the body can only raise
`readFailure`, the effectful map raises `readFailure`. -/
theorem mapE_error_of_mem {g : α → Except PyErr β} {l : List α} {x : α}
    (hx : x ∈ l) (hgx : g x = .error .readFailure)
    (hall : ∀ y e, g y = .error e → e = PyErr.readFailure) :
    mapE g l = .error .readFailure := by
  induction l with
  | nil => cases hx
  | cons a as ih =>
    cases hx with
    | head => simp [mapE, hgx]
    | tail _ hmem =>
      cases hga : g a with
      | error e =>
        have he := hall a e hga
        subst he
        simp [mapE, hga]
      | ok y => simp [mapE, hga, ih hmem]

/-- A successful shard filter yields exactly the pure-predicate filter of
the `.txt` listing (for a zero count, success forces an empty listing). -/
theorem assignedList_ok {dir : Dir} {replicaCount replicaId : Int}
    {a : List String}
    (h : assignedList dir replicaCount replicaId = .ok a) :
    a = (listTxtFiles dir).filter
      (fun f => isAssigned f replicaCount replicaId) := by
  by_cases hc : replicaCount = 0
  · subst hc
    cases hl : listTxtFiles dir with
    | nil =>
      unfold assignedList at h
      rw [hl] at h
      simp only [filterE] at h
      cases h
      simp [hl]
    | cons f rest =>
      unfold assignedList at h
      rw [hl] at h
      simp [filterE, shardCheck_zero] at h
  · unfold assignedList at h
    rw [filterE_pure (fun f => shardCheck_eq_isAssigned f replicaId hc)] at h
    cases h
    rfl

/-- A successful loop-body application keeps the filename as the key and
records that file's counts. -/
theorem resultStep_ok {isalpha : Char → Bool} {dir : Dir} {x : String}
    {y : String × Nat × Nat} (h : resultStep isalpha dir x = .ok y) :
    y.1 = x ∧ count_words_and_letters isalpha dir x = .ok (y.2.1, y.2.2) := by
  unfold resultStep at h
  cases hc : count_words_and_letters isalpha dir x with
  | error e => rw [hc] at h; cases h
  | ok wl => rw [hc] at h; cases h; exact ⟨rfl, rfl⟩

/-- File reading raises only `readFailure`. -/
theorem readFile_error {dir : Dir} {x : String} {e : PyErr}
    (h : readFile dir x = .error e) : e = PyErr.readFailure := by
  unfold readFile at h
  cases hl : List.lookup x dir with
  | none => rw [hl] at h; cases h; rfl
  | some o =>
    rw [hl] at h
    cases o with
    | none => cases h; rfl
    | some t => cases h

/-- The loop body raises only `readFailure`. -/
theorem resultStep_error {isalpha : Char → Bool} {dir : Dir} {x : String}
    {e : PyErr} (h : resultStep isalpha dir x = .error e) :
    e = PyErr.readFailure := by
  unfold resultStep at h
  cases hc : count_words_and_letters isalpha dir x with
  | error e' =>
    rw [hc] at h
    cases h
    unfold count_words_and_letters at hc
    cases hr : readFile dir x with
    | error e'' => rw [hr] at hc; cases hc; exact readFile_error hr
    | ok t => rw [hr] at hc; cases hc
  | ok wl => rw [hc] at h; cases h

/-- The tokenizer produces one token per maximal non-whitespace run; the
pending token in `acc` accounts for one more when nonempty. -/
theorem splitAux_length (l acc : List Char) :
    (splitAux l acc).length =
      (if acc.isEmpty then 0 else 1) + runCountAux (!acc.isEmpty) l := by
  induction l generalizing acc with
  | nil =>
    by_cases h : acc.isEmpty <;> simp [splitAux, runCountAux, h]
  | cons c cs ih =>
    by_cases hs : pyIsSpace c
    · by_cases h : acc.isEmpty
      · simp [splitAux, runCountAux, hs, h, ih]
      · simp [splitAux, runCountAux, hs, h, ih]
        omega
    · rw [show splitAux (c :: cs) acc = splitAux cs (c :: acc) by
        simp [splitAux, hs]]
      by_cases h : acc.isEmpty
      · simp [ih (c :: acc), runCountAux, hs, h]
      · simp [ih (c :: acc), runCountAux, hs, h]

/-- `len(text.split())` counts the maximal non-whitespace runs. -/
theorem wordCount_eq_runCount (text : List Char) :
    wordCount text = runCount text := by
  have := splitAux_length text []
  simpa [wordCount, pySplit, runCount] using this

/-- `sum(1 for char in text if char.isalpha())` counts the characters the
classification accepts. -/
theorem letterCount_eq_filter_length (isalpha : Char → Bool)
    (text : List Char) :
    letterCount isalpha text = (text.filter isalpha).length := by
  simp [letterCount, List.countP_eq_length_filter]

/-- A successful result-collection loop keeps exactly the assigned
filenames as keys, in order. -/
theorem forall2_resultStep_keys {isalpha : Char → Bool} {dir : Dir}
    {l : List String} {ys : List (String × Nat × Nat)}
    (h : List.Forall₂ (fun x y => resultStep isalpha dir x = .ok y) l ys) :
    ys.map Prod.fst = l := by
  induction h with
  | nil => rfl
  | cons hxy _ ih => simp [ih, (resultStep_ok hxy).1]

/-- A successful result-collection loop records each file's own counts. -/
theorem forall2_resultStep_vals {isalpha : Char → Bool} {dir : Dir}
    {l : List String} {ys : List (String × Nat × Nat)}
    (h : List.Forall₂ (fun x y => resultStep isalpha dir x = .ok y) l ys) :
    ∀ e ∈ ys, count_words_and_letters isalpha dir e.1 = .ok (e.2.1, e.2.2) := by
  induction h with
  | nil => intro e he; cases he
  | cons hxy _ ih =>
    intro e he
    cases he with
    | head =>
      rw [(resultStep_ok hxy).1]
      exact (resultStep_ok hxy).2
    | tail _ hmem => exact ih e hmem

/-! ### The claims -/

/-- C1: for every filename and every `REPLICA_COUNT ≥ 1`, exactly one
`REPLICA_ID` in `[0, REPLICA_COUNT)` satisfies line 22's shard condition
`int(md5(filename), 16) % REPLICA_COUNT == REPLICA_ID`, so the replicas'
assigned sets cover each file exactly once with no overlap. -/
theorem shard_selector_partitions (f : String) (replicaCount : Int)
    (h : 1 ≤ replicaCount) :
    ∃! replicaId : Int, 0 ≤ replicaId ∧ replicaId < replicaCount ∧
      shardCheck f replicaCount replicaId = .ok true := by
  have hc : replicaCount ≠ 0 := by omega
  have hfm : Int.fmod (md5int f) replicaCount =
      (md5int f : Int) % replicaCount := Int.fmod_eq_emod _ (by omega)
  refine ⟨(md5int f : Int) % replicaCount,
    ⟨Int.emod_nonneg _ hc, Int.emod_lt_of_pos _ (by omega), ?_⟩, ?_⟩
  · rw [shardCheck_eq_isAssigned f _ hc]
    simp [isAssigned, hfm]
  · rintro y ⟨hy0, hylt, hy⟩
    rw [shardCheck_eq_isAssigned f _ hc] at hy
    simp [isAssigned, hfm] at hy
    exact hy.symm

/-- Witness for C1 at `f = "a.txt"`, `REPLICA_COUNT = 2`. -/
theorem shard_selector_partitions_witness :
    ∃! replicaId : Int, 0 ≤ replicaId ∧ replicaId < 2 ∧
      shardCheck "a.txt" 2 replicaId = .ok true :=
  shard_selector_partitions "a.txt" 2 (by decide)

/-- C2: for a file that reads successfully, the word count that
`count_words_and_letters` returns equals the number of maximal runs of
non-whitespace characters in its text. -/
theorem word_count_counts_token_runs (isalpha : Char → Bool) (dir : Dir)
    (f : String) (text : List Char) (h : readFile dir f = .ok text) :
    (count_words_and_letters isalpha dir f).map Prod.fst =
      .ok (runCount text) := by
  simp [count_words_and_letters, h, Except.map, wordCount_eq_runCount]

/-- Witness for C2 on `" Hello   world "` (two runs). -/
theorem word_count_counts_token_runs_witness :
    (count_words_and_letters pyIsAlphaAscii
        [("a.txt", some " Hello   world ".data)] "a.txt").map Prod.fst =
      .ok (runCount " Hello   world ".data) :=
  word_count_counts_token_runs pyIsAlphaAscii
    [("a.txt", some " Hello   world ".data)] "a.txt"
    " Hello   world ".data (by rfl)

/-- C3: for a file that reads successfully, the letter count that
`count_words_and_letters` returns equals the number of characters of its
text that the alphabetic classification accepts. -/
theorem letter_count_counts_alpha_chars (isalpha : Char → Bool) (dir : Dir)
    (f : String) (text : List Char) (h : readFile dir f = .ok text) :
    (count_words_and_letters isalpha dir f).map Prod.snd =
      .ok ((text.filter isalpha).length) := by
  simp [count_words_and_letters, h, Except.map, letterCount_eq_filter_length]

/-- Witness for C3 on `"Hello world 123"` (ten ASCII letters). -/
theorem letter_count_counts_alpha_chars_witness :
    (count_words_and_letters pyIsAlphaAscii
        [("a.txt", some "Hello world 123".data)] "a.txt").map Prod.snd =
      .ok (("Hello world 123".data.filter pyIsAlphaAscii).length) :=
  letter_count_counts_alpha_chars pyIsAlphaAscii
    [("a.txt", some "Hello world 123".data)] "a.txt"
    "Hello world 123".data (by rfl)

/-- C4: an empty file yields `{"words": 0, "letters": 0}`. -/
theorem empty_file_zero_counts (isalpha : Char → Bool) (dir : Dir)
    (f : String) (h : readFile dir f = .ok []) :
    count_words_and_letters isalpha dir f = .ok (0, 0) := by
  simp [count_words_and_letters, h, wordCount, pySplit, splitAux, letterCount]

/-- Witness for C4 on a directory holding one empty file. -/
theorem empty_file_zero_counts_witness :
    count_words_and_letters pyIsAlphaAscii [("a.txt", some [])] "a.txt" =
      .ok (0, 0) :=
  empty_file_zero_counts pyIsAlphaAscii [("a.txt", some [])] "a.txt" (by rfl)

/-- C5: the file content `"Hello world 123"` yields word count 3 and letter
count 10 (the digits are not alphabetic). -/
theorem hello_world_example :
    count_words_and_letters pyIsAlphaAscii
      [("a.txt", some "Hello world 123".data)] "a.txt" = .ok (3, 10) := by
  decide

/-- C6: replica assignment is a pure function of
`(filename, REPLICA_COUNT, REPLICA_ID)`: across two runs over directories
that both list the filename as a `.txt` entry, membership in the assigned
set agrees, regardless of any file's contents and of which other files
exist. -/
theorem assignment_depends_only_on_name_and_config
    (replicaCount replicaId : Int) (f : String) (d1 d2 : Dir)
    (a1 a2 : List String)
    (h1 : assignedList d1 replicaCount replicaId = .ok a1)
    (h2 : assignedList d2 replicaCount replicaId = .ok a2)
    (hf1 : f ∈ listTxtFiles d1) (hf2 : f ∈ listTxtFiles d2) :
    (f ∈ a1 ↔ f ∈ a2) := by
  rw [assignedList_ok h1, assignedList_ok h2]
  simp [List.mem_filter, hf1, hf2]

set_option maxRecDepth 1000000 in
/-- Witness for C6: two directories with different contents for `a.txt`
and different neighbours assign `a.txt` the same way at count 2. -/
theorem assignment_depends_only_on_name_and_config_witness :
    ("a.txt" ∈ (["a.txt"] : List String) ↔
      "a.txt" ∈ (["a.txt"] : List String)) :=
  assignment_depends_only_on_name_and_config 2 0 "a.txt"
    [("a.txt", some "abc".data)] [("b.txt", none), ("a.txt", some [])]
    ["a.txt"] ["a.txt"] (by decide) (by decide) (by decide) (by decide)

/-- C7: if reading or decoding an assigned file fails, `process_files`
propagates the failure: the whole run ends in the raised error and no
output file is produced (the `.ok` carrying the output JSON never arises,
so the output state is unchanged). -/
theorem read_failure_aborts_run (isalpha : Char → Bool) (dir : Dir)
    (replicaCount replicaId : Int) (f : String)
    (hmem : f ∈ listTxtFiles dir)
    (hassigned : shardCheck f replicaCount replicaId = .ok true)
    (hread : dir.lookup f = some none) :
    process_files isalpha dir replicaCount replicaId =
      .error .readFailure := by
  have hc : replicaCount ≠ 0 := by
    intro h0
    subst h0
    rw [shardCheck_zero] at hassigned
    cases hassigned
  have hassign' : isAssigned f replicaCount replicaId = true := by
    rw [shardCheck_eq_isAssigned f replicaId hc] at hassigned
    injection hassigned
  have hAL : assignedList dir replicaCount replicaId =
      .ok ((listTxtFiles dir).filter
        (fun g => isAssigned g replicaCount replicaId)) :=
    filterE_pure (fun g => shardCheck_eq_isAssigned g replicaId hc) _
  have hg : resultStep isalpha dir f = .error .readFailure := by
    unfold resultStep count_words_and_letters readFile
    rw [hread]
  have hM : mapE (resultStep isalpha dir)
      ((listTxtFiles dir).filter
        (fun g => isAssigned g replicaCount replicaId)) =
      .error .readFailure :=
    mapE_error_of_mem (List.mem_filter.mpr ⟨hmem, hassign'⟩) hg
      (fun y e he => resultStep_error he)
  simp [process_files, hAL, hM]

/-- Witness for C7: a one-file directory whose file fails to read. -/
theorem read_failure_aborts_run_witness :
    process_files pyIsAlphaAscii [("a.txt", none)] 1 0 =
      .error .readFailure :=
  read_failure_aborts_run pyIsAlphaAscii [("a.txt", none)] 1 0 "a.txt"
    (by decide)
    (by set_option maxRecDepth 1000000 in decide)
    (by rfl)

/-- C8: a successful run produces exactly one output file,
`results_<REPLICA_ID>.json`, whose keys are exactly the `.txt` filenames
line 22 assigns to this replica (in listing order, no others) and whose
values are those files' word/letter counts. -/
theorem output_is_single_json_with_assigned_keys (isalpha : Char → Bool)
    (dir : Dir) (replicaCount replicaId : Int) (nm : String)
    (res : List (String × Nat × Nat))
    (h : process_files isalpha dir replicaCount replicaId = .ok (nm, res)) :
    nm = "results_" ++ toString replicaId ++ ".json" ∧
    res.map Prod.fst = (listTxtFiles dir).filter
      (fun f => isAssigned f replicaCount replicaId) ∧
    ∀ e ∈ res,
      count_words_and_letters isalpha dir e.1 = .ok (e.2.1, e.2.2) := by
  unfold process_files at h
  split at h
  · cases h
  rename_i assigned hAL
  split at h
  · cases h
  rename_i results hM
  injection h with hp
  have hnm := congrArg Prod.fst hp
  have hres := congrArg Prod.snd hp
  simp only at hnm hres
  subst hres
  refine ⟨hnm.symm, ?_, ?_⟩
  · rw [forall2_resultStep_keys (mapE_ok_forall2 hM)]
    exact (assignedList_ok hAL).symm ▸ rfl
  · exact forall2_resultStep_vals (mapE_ok_forall2 hM)

set_option maxRecDepth 1000000 in
/-- Witness for C8: at count 2, replica 0 gets `a.txt` only, with the
counts of `"hi"`. -/
theorem output_is_single_json_with_assigned_keys_witness :
    ("results_0.json" = "results_" ++ toString (0 : Int) ++ ".json" ∧
     ([("a.txt", 1, 2)] : List (String × Nat × Nat)).map Prod.fst =
       (listTxtFiles [("a.txt", some "hi".data), ("b.txt", some [])]).filter
         (fun f => isAssigned f 2 0) ∧
     ∀ e ∈ ([("a.txt", 1, 2)] : List (String × Nat × Nat)),
       count_words_and_letters pyIsAlphaAscii
         [("a.txt", some "hi".data), ("b.txt", some [])] e.1 =
           .ok (e.2.1, e.2.2)) :=
  output_is_single_json_with_assigned_keys pyIsAlphaAscii
    [("a.txt", some "hi".data), ("b.txt", some [])] 2 0 "results_0.json"
    [("a.txt", 1, 2)] (by decide)

/-- C9: with the defaults `REPLICA_COUNT = 1`, `REPLICA_ID = 0`, the shard
condition accepts every filename (any non-negative hash mod 1 is 0), so a
single default-configured replica is assigned the entire `.txt` listing. -/
theorem replica_count_one_assigns_all :
    (∀ f : String, shardCheck f 1 0 = .ok true) ∧
    ∀ dir : Dir, assignedList dir 1 0 = .ok (listTxtFiles dir) := by
  have hs : ∀ f : String, shardCheck f 1 0 = .ok true := by
    intro f
    rw [shardCheck_eq_isAssigned f 0 (by omega)]
    simp [isAssigned, Int.fmod_one]
  refine ⟨hs, fun dir => ?_⟩
  unfold assignedList
  rw [filterE_pure (q := fun _ => true) hs]
  simp

/-- C10: with `REPLICA_COUNT = 0` and a non-empty `.txt` listing, line 22's
`% 0` raises `ZeroDivisionError`, so `process_files` aborts before any
output is written; `REPLICA_COUNT ≥ 1` is required to keep this branch
unreachable. -/
theorem replica_count_zero_aborts (isalpha : Char → Bool) (dir : Dir)
    (replicaId : Int) (h : listTxtFiles dir ≠ []) :
    process_files isalpha dir 0 replicaId = .error .zeroDivision := by
  obtain ⟨f, rest, hfr⟩ : ∃ f rest, listTxtFiles dir = f :: rest := by
    cases hl : listTxtFiles dir with
    | nil => exact absurd hl h
    | cons f rest => exact ⟨f, rest, rfl⟩
  unfold process_files assignedList
  rw [hfr]
  simp [filterE, shardCheck_zero]

/-- Witness for C10: one `.txt` file and `REPLICA_COUNT = 0`. -/
theorem replica_count_zero_aborts_witness :
    process_files pyIsAlphaAscii [("a.txt", some [])] 0 7 =
      .error .zeroDivision :=
  replica_count_zero_aborts pyIsAlphaAscii [("a.txt", some [])] 7 (by decide)
